import Mathlib

/-!
Verification development for a two-stage chat pipeline built on LangChain
(files src/chatbot.py, config/settings.py). The model below is a shallow
embedding: the per-session message store is an association list, the
language model is an abstract completion port returning text or an error,
and the chain wiring of Chatbot.chat is translated call by call:

* RunnableWithMessageHistory loads the history for the session id given in
  the invoke config (always "default"), assigns it to the chat_history key
  of the input dict, runs the inner core chain, and on success records
  HumanMessage(raw input) and AIMessage(inner-chain output) in the history.
* The inner core chain is RunnableLambda(_clean_input) | prompt | llm; the
  cleaning step returns a dict holding only the input key, so the
  chat_history entry is dropped, and the ("placeholder", "{chat_history}")
  template is optional and renders as no messages when the key is absent.
* formatted_chain pipes the inner-chain output (the draft) into a second
  prompt and a second llm call; this stage sits outside the history
  wrapper, so its output is returned to the caller but never recorded.
-/

inductive Role where
  | system
  | user
  | assistant
deriving DecidableEq

structure Message where
  role : Role
  content : String
deriving DecidableEq

/-- The in-memory session store: dict from session id to message list. -/
abbrev Store := List (String × List Message)

/-- Abstract completion capability: a message sequence in, either generated
text or a raised failure out. -/
abbrev CompletionPort := List Message → Except String String

/-- SYSTEM_MESSAGE from config/settings.py (triple-quoted literal, with the
trailing space on the first line). -/
def SYSTEM_MESSAGE : String :=
  "You are a helpful AI assistant. \nYou should be friendly, informative, and try to help the user with their questions.\nKeep your responses simple and direct but complete."

/-- MAX_MEMORY_SIZE from config/settings.py. It is imported by chatbot.py
but never used there. -/
def MAX_MEMORY_SIZE : Nat := 10

/-- The system line of format_prompt in Chatbot.__init__. -/
def formatInstruction : String :=
  "Rewrite the following assistant draft into a concise, helpful answer. Use short paragraphs and bullet points when listing steps or options."

/-- The fallback greeting substituted by Chatbot._clean_input. -/
def fallbackGreeting : String := "Hello, how can I help you?"

/-- The python str.strip() call: remove leading and trailing whitespace
characters, modelled structurally on the character list. -/
def pyStrip (s : String) : String :=
  String.mk
    (((s.data.dropWhile Char.isWhitespace).reverse.dropWhile
        Char.isWhitespace).reverse)

/-- The dict flowing through the core chain: the "input" entry and the
optional "chat_history" entry assigned by the history wrapper. -/
structure ChainInput where
  input : String
  chat_history : Option (List Message)

/-- Chatbot._clean_input: strip the input; substitute the fallback greeting
when the stripped text is empty. Both branches build a fresh dict holding
only the "input" key, so any chat_history entry is dropped. -/
def cleanInputDict (d : ChainInput) : ChainInput :=
  let text := pyStrip d.input
  if text = "" then { input := fallbackGreeting, chat_history := none }
  else { input := text, chat_history := none }

/-- The chat prompt of _create_conversation_chain: system preamble, the
optional chat_history placeholder (no messages when the key is absent),
then the human input. -/
def promptFormat (d : ChainInput) : List Message :=
  Message.mk Role.system SYSTEM_MESSAGE ::
    (d.chat_history.getD [] ++ [Message.mk Role.user d.input])

/-- The message sequence the DRAFT-stage llm call receives, given the
history loaded for the session and the raw user input: the history wrapper
assigns chat_history, then the core chain cleans and formats. -/
def draftMessages (hist : List Message) (raw : String) : List Message :=
  promptFormat (cleanInputDict { input := raw, chat_history := some hist })

/-- The message sequence the REFORMAT-stage llm call receives: the fixed
format_prompt applied to the draft text. -/
def formatMessages (draft : String) : List Message :=
  [Message.mk Role.system formatInstruction, Message.mk Role.user draft]

/-- Transcript stored under a session id; an absent id reads as empty. -/
def transcriptOf : Store → String → List Message
  | [], _ => []
  | (k, h) :: rest, sid => if k = sid then h else transcriptOf rest sid

/-- Whether the store already holds an entry for the session id. -/
def hasSession : Store → String → Bool
  | [], _ => false
  | (k, _) :: rest, sid => k = sid || hasSession rest sid

/-- Chatbot.get_session_history: return the existing history for the id,
or create and register an empty one. Returns the history together with the
(possibly extended) store. -/
def getSessionHistory (store : Store) (sid : String) : List Message × Store :=
  if hasSession store sid then (transcriptOf store sid, store)
  else ([], (sid, []) :: store)

/-- Append messages to the history stored under the given id (the in-place
add_messages mutation of the history object aliased in the dict). -/
def appendMessages : Store → String → List Message → Store
  | [], sid, msgs => [(sid, msgs)]
  | (k, h) :: rest, sid, msgs =>
    if k = sid then (k, h ++ msgs) :: rest
    else (k, h) :: appendMessages rest sid msgs

/-- Chatbot.chat: invoke formatted_chain with session id "default" and
catch every failure as an error string. The history wrapper loads the
history, the inner chain produces the draft, and on inner-chain success the
wrapper records HumanMessage(raw input) and AIMessage(draft) before the
format stage runs; the format stage output is returned, never recorded. -/
def chat (port : CompletionPort) (store : Store) (userInput : String) :
    String × Store :=
  let hs := getSessionHistory store "default"
  match port (draftMessages hs.1 userInput) with
  | Except.error e => ("Sorry, I encountered an error: " ++ e, hs.2)
  | Except.ok draft =>
    let store2 := appendMessages hs.2 "default"
      [Message.mk Role.user userInput, Message.mk Role.assistant draft]
    match port (formatMessages draft) with
    | Except.error e => ("Sorry, I encountered an error: " ++ e, store2)
    | Except.ok finalText => (finalText, store2)

/-- Chatbot.clear_memory: self._memory_store.clear() empties the dict. -/
def clearMemory (_s : Store) : Store := []

/-- The python slice messages[-n:]: the last n messages (all of them when
the list is shorter). -/
def lastN (n : Nat) (xs : List Message) : List Message :=
  xs.drop (xs.length - n)

/-- Speaker label in get_memory_summary: "Human" for HumanMessage,
otherwise "AI". -/
def roleLabel (m : Message) : String :=
  match m.role with
  | Role.user => "Human"
  | _ => "AI"

/-- Displayed content in get_memory_summary: content capped at 100
characters with an ellipsis marker; stored content is untouched. -/
def displayContent (m : Message) : String :=
  if m.content.length > 100 then m.content.take 100 ++ "..." else m.content

/-- The numbered display lines of get_memory_summary. -/
def summaryLines : Nat → List Message → String
  | _, [] => ""
  | i, m :: rest =>
    toString i ++ ". " ++ roleLabel m ++ ": " ++ displayContent m ++ "\n" ++
      summaryLines (i + 1) rest

/-- Chatbot.get_memory_summary: read the "default" history (creating it
when absent, as get_session_history does), return the fixed no-history
message when empty, otherwise the numbered last-6 display. -/
def getMemorySummary (store : Store) : String × Store :=
  let hs := getSessionHistory store "default"
  if hs.1.isEmpty then ("No conversation history yet.", hs.2)
  else ("Recent conversation:\n" ++ summaryLines 1 (lastN 6 hs.1), hs.2)

/-- Success of one chat call: both port calls return text. -/
def chatSuccessB (port : CompletionPort) (store : Store) (raw : String) :
    Bool :=
  match port (draftMessages (transcriptOf store "default") raw) with
  | Except.error _ => false
  | Except.ok d =>
    match port (formatMessages d) with
    | Except.error _ => false
    | Except.ok _ => true

/-- Iterate chat over a list of inputs, threading the store. -/
def chatMany (port : CompletionPort) : Store → List String → Store
  | store, [] => store
  | store, r :: rs => chatMany port (chat port store r).2 rs

/-- Every call in the sequence succeeds at both stages. -/
def allSuccessfulB (port : CompletionPort) : Store → List String → Bool
  | _, [] => true
  | store, r :: rs =>
    chatSuccessB port store r && allSuccessfulB port (chat port store r).2 rs

/-- A transcript shaped as user/assistant pairs in alternation. -/
def alternatesUA : List Message → Bool
  | [] => true
  | [_] => false
  | u :: a :: rest =>
    (match u.role, a.role with
     | Role.user, Role.assistant => true
     | _, _ => false) && alternatesUA rest

/-- The contents of the user-role messages, in order. -/
def userContents : List Message → List String
  | [] => []
  | m :: rest =>
    if m.role = Role.user then m.content :: userContents rest
    else userContents rest

/-- A test completion port answering DRAFT to the stage-one call (whose
last message carries the encoded input Hi) and FINAL to every other call,
so the two stages are distinguishable. -/
def portC1 : CompletionPort := fun msgs =>
  match msgs with
  | [_, m] =>
    if m.content = "Hi" then Except.ok "DRAFT" else Except.ok "FINAL"
  | _ => Except.ok "FINAL"

/-- A test completion port succeeding at the stage-one call (encoded input
Hi) with draft D and raising on every other call, so only the REFORMAT
stage fails. -/
def portC2 : CompletionPort := fun msgs =>
  match msgs with
  | [_, m] =>
    if m.content = "Hi" then Except.ok "D" else Except.error "boom"
  | _ => Except.error "boom"

/-- A test completion port raising on every call. -/
def portFail : CompletionPort := fun _ => Except.error "down"

/-- A test completion port answering R to every call. -/
def portOk : CompletionPort := fun _ => Except.ok "R"

/-- A 101-character content, one past the display budget. -/
def longContent : String := String.mk (List.replicate 101 'a')

/-- A store whose default session holds seven messages, the last one over
the display budget. -/
def c8store : Store :=
  [("default",
    [Message.mk Role.user "one", Message.mk Role.assistant "two",
     Message.mk Role.user "three", Message.mk Role.assistant "four",
     Message.mk Role.user "five", Message.mk Role.assistant "six",
     Message.mk Role.user longContent])]

/-- A store holding only a session distinct from the default one. -/
def c10store : Store := [("other", [Message.mk Role.user "x"])]

/-! ### Store lemmas -/

theorem transcriptOf_eq_nil_of_not_hasSession (store : Store) (sid : String)
    (h : hasSession store sid = false) : transcriptOf store sid = [] := by
  induction store with
  | nil => rfl
  | cons p rest ih =>
    obtain ⟨k, hist⟩ := p
    simp only [hasSession, Bool.or_eq_false_iff, decide_eq_false_iff_not] at h
    simp only [transcriptOf, if_neg (fun he => h.1 he), ih h.2]

theorem getSessionHistory_fst (store : Store) (sid : String) :
    (getSessionHistory store sid).1 = transcriptOf store sid := by
  unfold getSessionHistory
  cases h : hasSession store sid with
  | true => simp
  | false => simp [transcriptOf_eq_nil_of_not_hasSession store sid h]

theorem transcriptOf_getSessionHistory_snd (store : Store) (sid sid' : String) :
    transcriptOf (getSessionHistory store sid).2 sid' = transcriptOf store sid' := by
  unfold getSessionHistory
  cases h : hasSession store sid with
  | true => simp
  | false =>
    simp only [Bool.false_eq_true, if_false, transcriptOf]
    by_cases he : sid = sid'
    · subst he
      simp [transcriptOf_eq_nil_of_not_hasSession store sid h]
    · simp [he]

theorem hasSession_getSessionHistory_snd (store : Store) (sid : String) :
    hasSession (getSessionHistory store sid).2 sid = true := by
  unfold getSessionHistory
  cases h : hasSession store sid with
  | true => simpa using h
  | false => simp [hasSession]

theorem transcriptOf_appendMessages_self (store : Store) (sid : String)
    (msgs : List Message) (h : hasSession store sid = true) :
    transcriptOf (appendMessages store sid msgs) sid =
      transcriptOf store sid ++ msgs := by
  induction store with
  | nil => simp [hasSession] at h
  | cons p rest ih =>
    obtain ⟨k, hist⟩ := p
    by_cases he : k = sid
    · subst he
      simp [appendMessages, transcriptOf]
    · simp only [hasSession, Bool.or_eq_true, decide_eq_true_eq] at h
      rcases h with h | h
      · exact absurd h he
      · simp [appendMessages, transcriptOf, he, ih h]

theorem transcriptOf_appendMessages_ne (store : Store) (sid sid' : String)
    (msgs : List Message) (h : sid' ≠ sid) :
    transcriptOf (appendMessages store sid msgs) sid' =
      transcriptOf store sid' := by
  induction store with
  | nil =>
    simp only [appendMessages, transcriptOf]
    rw [if_neg (fun he => h he.symm)]
  | cons p rest ih =>
    obtain ⟨k, hist⟩ := p
    by_cases he : k = sid
    · subst he
      simp only [appendMessages, if_pos rfl, transcriptOf]
      rw [if_neg (fun hx => h hx.symm), if_neg (fun hx => h hx.symm)]
    · simp [appendMessages, transcriptOf, he, ih]

/-! ### Chat step lemmas -/

theorem chat_draft_error (port : CompletionPort) (store : Store)
    (raw e : String)
    (hd : port (draftMessages (transcriptOf store "default") raw) =
      Except.error e) :
    chat port store raw =
      ("Sorry, I encountered an error: " ++ e,
        (getSessionHistory store "default").2) := by
  simp only [chat, getSessionHistory_fst, hd]

theorem chat_draft_ok (port : CompletionPort) (store : Store) (raw d : String)
    (hd : port (draftMessages (transcriptOf store "default") raw) =
      Except.ok d) :
    chat port store raw =
      (match port (formatMessages d) with
       | Except.error e => "Sorry, I encountered an error: " ++ e
       | Except.ok finalText => finalText,
       appendMessages (getSessionHistory store "default").2 "default"
         [Message.mk Role.user raw, Message.mk Role.assistant d]) := by
  simp only [chat, getSessionHistory_fst, hd]
  cases hf : port (formatMessages d) <;> simp [hf]

theorem chat_success_transcript (port : CompletionPort) (store : Store)
    (raw d : String)
    (hd : port (draftMessages (transcriptOf store "default") raw) =
      Except.ok d) :
    transcriptOf (chat port store raw).2 "default" =
      transcriptOf store "default" ++
        [Message.mk Role.user raw, Message.mk Role.assistant d] := by
  rw [chat_draft_ok port store raw d hd]
  rw [transcriptOf_appendMessages_self _ _ _
    (hasSession_getSessionHistory_snd store "default")]
  rw [transcriptOf_getSessionHistory_snd]

theorem draftMessages_eq (hist : List Message) (raw : String) :
    draftMessages hist raw =
      [Message.mk Role.system SYSTEM_MESSAGE,
       Message.mk Role.user
        (cleanInputDict
          { input := raw, chat_history := some hist }).input] := by
  unfold draftMessages promptFormat cleanInputDict
  by_cases hs : pyStrip raw = "" <;> simp [hs]

theorem getMemorySummary_snd (store : Store) :
    (getMemorySummary store).2 = (getSessionHistory store "default").2 := by
  simp only [getMemorySummary]
  split <;> rfl

theorem getMemorySummary_fst (store : Store) :
    (getMemorySummary store).1 =
      if (transcriptOf store "default").isEmpty then
        "No conversation history yet."
      else
        "Recent conversation:\n" ++
          summaryLines 1 (lastN 6 (transcriptOf store "default")) := by
  simp only [getMemorySummary, getSessionHistory_fst]
  split <;> rfl

theorem transcriptOf_singleton (sid : String) (msgs : List Message) :
    transcriptOf [(sid, msgs)] sid = msgs := by
  simp [transcriptOf]

/-! ### Claim theorems -/

/-- C7 (confirmed): the turn encoder is total over all string inputs — the
encoded content is the stripped input, except that the fixed fallback
greeting is substituted when the stripped input is empty; the result is
never the empty string and no input is rejected. -/
theorem c7_turn_encoder_total (s : String) (h : Option (List Message)) :
    ((cleanInputDict { input := s, chat_history := h }).input =
      if pyStrip s = "" then fallbackGreeting else pyStrip s) ∧
    (cleanInputDict { input := s, chat_history := h }).input ≠ "" := by
  constructor
  · unfold cleanInputDict
    by_cases hs : pyStrip s = "" <;> simp [hs]
  · unfold cleanInputDict
    by_cases hs : pyStrip s = ""
    · simp only [hs, if_pos rfl]
      decide
    · simp [hs]

/-- Witness for C7 at the all-whitespace input. -/
theorem c7_turn_encoder_total_witness :
    ((cleanInputDict { input := "   ", chat_history := none }).input =
      if pyStrip "   " = "" then fallbackGreeting else pyStrip "   ") ∧
    (cleanInputDict { input := "   ", chat_history := none }).input ≠ "" :=
  c7_turn_encoder_total "   " none

/-- C9 (confirmed): clear is idempotent (clearing twice equals clearing
once, the store being emptied), and a memory summary right after a clear
returns the fixed no-history message; the cleared transcript yields the
empty display list for every requested count. -/
theorem c9_clear_idempotent_and_empty_summary (store : Store) (n : Nat) :
    clearMemory (clearMemory store) = clearMemory store ∧
    (getMemorySummary (clearMemory store)).1 =
      "No conversation history yet." ∧
    lastN n (transcriptOf (clearMemory store) "default") = [] := by
  refine ⟨rfl, rfl, ?_⟩
  simp [clearMemory, transcriptOf, lastN]

/-- C4 (confirmed): chat is total for every completion-port behaviour —
it returns the final text when both port calls succeed, and the formatted
error string when either call fails; no failure escapes. -/
theorem c4_chat_never_raises (port : CompletionPort) (store : Store)
    (raw : String) :
    (∃ d f,
      port (draftMessages (transcriptOf store "default") raw) =
          Except.ok d ∧
        port (formatMessages d) = Except.ok f ∧
        (chat port store raw).1 = f) ∨
    (∃ e,
      (chat port store raw).1 = "Sorry, I encountered an error: " ++ e) := by
  cases hd : port (draftMessages (transcriptOf store "default") raw) with
  | error e =>
    right
    exact ⟨e, by rw [chat_draft_error port store raw e hd]⟩
  | ok d =>
    cases hf : port (formatMessages d) with
    | error e =>
      right
      refine ⟨e, ?_⟩
      rw [chat_draft_ok port store raw d hd]
      simp [hf]
    | ok f =>
      left
      refine ⟨d, f, rfl, hf, ?_⟩
      rw [chat_draft_ok port store raw d hd]
      simp [hf]

/-- C3 (code bug): the DRAFT-stage message sequence contains no transcript
history at all, whatever the stored history is — the cleaning step drops
the chat_history entry and the optional placeholder renders empty — so in
particular the configured MAX_MEMORY_SIZE cap is never what bounds the
prompt; the prompt is always system preamble plus the encoded user turn. -/
theorem c3_draft_prompt_has_no_history (hist : List Message) (raw : String) :
    (draftMessages hist raw).length = 2 ∧
    draftMessages hist raw = draftMessages [] raw := by
  constructor
  · rw [draftMessages_eq]
    rfl
  · rw [draftMessages_eq, draftMessages_eq]
    unfold cleanInputDict
    by_cases hs : pyStrip raw = "" <;> simp [hs]

/-- C1 counterexample: with a port answering DRAFT to the history-stage
call and FINAL to the reformat call, chat returns FINAL to the caller but
persists DRAFT as the assistant message — the transcript does not hold the
returned reformatted text, and the intermediate draft is exactly what is
persisted. -/
theorem c1_counterexample :
    (chat portC1 [] "Hi").1 = "FINAL" ∧
    transcriptOf (chat portC1 [] "Hi").2 "default" =
      [Message.mk Role.user "Hi", Message.mk Role.assistant "DRAFT"] ∧
    ¬ Message.mk Role.assistant "FINAL" ∈
        transcriptOf (chat portC1 [] "Hi").2 "default" := by
  decide

/-- C1 amended (proved): on a successful chat call the assistant message
appended to the transcript carries the draft text from the first
completion call; the reformatted text is returned to the caller and never
persisted in the transcript. -/
theorem c1_amended_draft_persisted (port : CompletionPort) (store : Store)
    (raw d f : String)
    (hd : port (draftMessages (transcriptOf store "default") raw) =
      Except.ok d)
    (hf : port (formatMessages d) = Except.ok f) :
    (chat port store raw).1 = f ∧
    transcriptOf (chat port store raw).2 "default" =
      transcriptOf store "default" ++
        [Message.mk Role.user raw, Message.mk Role.assistant d] := by
  constructor
  · rw [chat_draft_ok port store raw d hd]
    simp [hf]
  · exact chat_success_transcript port store raw d hd

/-- Witness for the amended C1 at the concrete two-answer port. -/
theorem c1_amended_draft_persisted_witness :
    (chat portC1 [] "Hi").1 = "FINAL" ∧
    transcriptOf (chat portC1 [] "Hi").2 "default" =
      transcriptOf ([] : Store) "default" ++
        [Message.mk Role.user "Hi", Message.mk Role.assistant "DRAFT"] :=
  c1_amended_draft_persisted portC1 [] "Hi" "DRAFT" "FINAL" rfl rfl

/-- C2 counterexample: with a port that succeeds at the DRAFT stage and
raises at the REFORMAT stage, chat reports the error, yet the transcript
has grown from zero to two messages — the user message and the draft were
recorded by the history wrapper before the reformat call failed. -/
theorem c2_counterexample :
    (chat portC2 [] "Hi").1 = "Sorry, I encountered an error: boom" ∧
    (transcriptOf ([] : Store) "default").length = 0 ∧
    (transcriptOf (chat portC2 [] "Hi").2 "default").length = 2 := by
  decide

/-- C2 amended (proved): a DRAFT-stage failure leaves every stored
transcript unchanged, while a REFORMAT-stage failure returns the error
string with the user message and the draft already appended to the default
transcript. -/
theorem c2_amended_failure_trace (port : CompletionPort) (store : Store)
    (raw e : String) :
    (port (draftMessages (transcriptOf store "default") raw) =
        Except.error e →
      ∀ sid,
        transcriptOf (chat port store raw).2 sid = transcriptOf store sid) ∧
    (∀ d,
      port (draftMessages (transcriptOf store "default") raw) =
          Except.ok d →
        port (formatMessages d) = Except.error e →
        (chat port store raw).1 = "Sorry, I encountered an error: " ++ e ∧
        transcriptOf (chat port store raw).2 "default" =
          transcriptOf store "default" ++
            [Message.mk Role.user raw, Message.mk Role.assistant d]) := by
  constructor
  · intro hd sid
    rw [chat_draft_error port store raw e hd]
    exact transcriptOf_getSessionHistory_snd store "default" sid
  · intro d hd hf
    refine ⟨?_, chat_success_transcript port store raw d hd⟩
    rw [chat_draft_ok port store raw d hd]
    simp [hf]

/-- Witness for the amended C2: a port failing at DRAFT leaves the
transcript as it was; a port failing at REFORMAT leaves the pair appended. -/
theorem c2_amended_failure_trace_witness :
    transcriptOf (chat portFail [] "Hi").2 "default" =
      transcriptOf ([] : Store) "default" ∧
    (chat portC2 [] "Hi").1 = "Sorry, I encountered an error: " ++ "boom" ∧
    transcriptOf (chat portC2 [] "Hi").2 "default" =
      transcriptOf ([] : Store) "default" ++
        [Message.mk Role.user "Hi", Message.mk Role.assistant "D"] :=
  ⟨(c2_amended_failure_trace portFail [] "Hi" "down").1 rfl "default",
   ((c2_amended_failure_trace portC2 [] "Hi" "boom").2 "D" rfl rfl).1,
   ((c2_amended_failure_trace portC2 [] "Hi" "boom").2 "D" rfl rfl).2⟩

/-- C5 counterexample: for the all-whitespace input with an always-ok
port, the persisted user message carries the raw whitespace string, not
the fallback greeting the turn encoder produced for the prompt. -/
theorem c5_counterexample :
    transcriptOf (chat portOk [] "   ").2 "default" =
      [Message.mk Role.user "   ", Message.mk Role.assistant "R"] ∧
    (cleanInputDict { input := "   ", chat_history := none }).input =
      "Hello, how can I help you?" ∧
    ¬ ("   " : String) = "Hello, how can I help you?" := by
  decide

/-- C5 amended (proved): on a successful chat call the user message
appended to the transcript is the raw caller input; the encoded (stripped
or fallback) text appears only as the final message of the DRAFT prompt. -/
theorem c5_amended_raw_input_persisted (port : CompletionPort)
    (store : Store) (raw d : String)
    (hd : port (draftMessages (transcriptOf store "default") raw) =
      Except.ok d) :
    transcriptOf (chat port store raw).2 "default" =
      transcriptOf store "default" ++
        [Message.mk Role.user raw, Message.mk Role.assistant d] ∧
    (draftMessages (transcriptOf store "default") raw).getLast? =
      some (Message.mk Role.user
        (cleanInputDict
          { input := raw,
            chat_history := some (transcriptOf store "default") }).input) := by
  refine ⟨chat_success_transcript port store raw d hd, ?_⟩
  rw [draftMessages_eq]
  rfl

/-- Witness for the amended C5 at the all-whitespace input. -/
theorem c5_amended_raw_input_persisted_witness :
    transcriptOf (chat portOk [] "   ").2 "default" =
      transcriptOf ([] : Store) "default" ++
        [Message.mk Role.user "   ", Message.mk Role.assistant "R"] ∧
    (draftMessages (transcriptOf ([] : Store) "default") "   ").getLast? =
      some (Message.mk Role.user
        (cleanInputDict
          { input := "   ",
            chat_history :=
              some (transcriptOf ([] : Store) "default") }).input) :=
  c5_amended_raw_input_persisted portOk [] "   " "R" rfl

/-- C8 (confirmed): the memory summary leaves every stored transcript
unchanged (the default entry is lazily created empty when absent), the
displayed window is at most the last 6 stored messages taken as a suffix
of the transcript (hence in chronological order), each displayed content
is capped at 100 characters with an ellipsis marker while shorter contents
appear verbatim, and on a nonempty transcript the summary string is built
from exactly that window. -/
theorem c8_summary_bounded_and_pure (store : Store) :
    (∀ sid, transcriptOf (getMemorySummary store).2 sid =
      transcriptOf store sid) ∧
    (lastN 6 (transcriptOf store "default")).length ≤ 6 ∧
    List.IsSuffix (lastN 6 (transcriptOf store "default"))
      (transcriptOf store "default") ∧
    (∀ m ∈ lastN 6 (transcriptOf store "default"),
      (m.content.length ≤ 100 → displayContent m = m.content) ∧
      (100 < m.content.length →
        displayContent m = m.content.take 100 ++ "...")) ∧
    (¬ transcriptOf store "default" = [] →
      (getMemorySummary store).1 =
        "Recent conversation:\n" ++
          summaryLines 1 (lastN 6 (transcriptOf store "default"))) := by
  refine ⟨?_, ?_, ?_, ?_, ?_⟩
  · intro sid
    rw [getMemorySummary_snd]
    exact transcriptOf_getSessionHistory_snd store "default" sid
  · rw [lastN, List.length_drop]
    omega
  · exact List.drop_suffix _ _
  · intro m _
    constructor
    · intro hle
      unfold displayContent
      rw [if_neg (by omega)]
    · intro hgt
      unfold displayContent
      rw [if_pos hgt]
  · intro hne
    rw [getMemorySummary_fst, if_neg (by simpa [List.isEmpty_iff] using hne)]

/-- Witness for C8 at a seven-message store with one over-budget content. -/
theorem c8_summary_bounded_and_pure_witness :
    transcriptOf (getMemorySummary c8store).2 "default" =
      transcriptOf c8store "default" ∧
    (lastN 6 (transcriptOf c8store "default")).length ≤ 6 ∧
    displayContent (Message.mk Role.user longContent) =
      (Message.mk Role.user longContent).content.take 100 ++ "..." :=
  ⟨(c8_summary_bounded_and_pure c8store).1 "default",
   (c8_summary_bounded_and_pure c8store).2.1,
   ((c8_summary_bounded_and_pure c8store).2.2.2.1
      (Message.mk Role.user longContent) (by decide)).2 (by decide)⟩

/-- C10 (confirmed): chat and the memory summary are wired to the
hardcoded session id; every transcript stored under another id reads back
unchanged after either operation, and the results of both operations
depend only on the transcript stored under the default id. -/
theorem c10_only_default_session (port : CompletionPort) (store : Store)
    (raw sid : String) (h : ¬ sid = "default") :
    transcriptOf (chat port store raw).2 sid = transcriptOf store sid ∧
    transcriptOf (getMemorySummary store).2 sid = transcriptOf store sid ∧
    (chat port store raw).1 =
      (chat port [("default", transcriptOf store "default")] raw).1 ∧
    (getMemorySummary store).1 =
      (getMemorySummary [("default", transcriptOf store "default")]).1 := by
  have ht : transcriptOf [("default", transcriptOf store "default")]
      "default" = transcriptOf store "default" :=
    transcriptOf_singleton _ _
  refine ⟨?_, ?_, ?_, ?_⟩
  · cases hd : port (draftMessages (transcriptOf store "default") raw) with
    | error e =>
      rw [chat_draft_error port store raw e hd]
      exact transcriptOf_getSessionHistory_snd store "default" sid
    | ok d =>
      rw [chat_draft_ok port store raw d hd]
      rw [transcriptOf_appendMessages_ne _ _ _ _ h]
      exact transcriptOf_getSessionHistory_snd store "default" sid
  · rw [getMemorySummary_snd]
    exact transcriptOf_getSessionHistory_snd store "default" sid
  · cases hd : port (draftMessages (transcriptOf store "default") raw) with
    | error e =>
      rw [chat_draft_error port store raw e hd,
        chat_draft_error port _ raw e (by rw [ht]; exact hd)]
    | ok d =>
      rw [chat_draft_ok port store raw d hd,
        chat_draft_ok port _ raw d (by rw [ht]; exact hd)]
  · rw [getMemorySummary_fst, getMemorySummary_fst, ht]

/-- Witness for C10 at a store holding only a foreign session. -/
theorem c10_only_default_session_witness :
    transcriptOf (chat portOk c10store "Hi").2 "other" =
      transcriptOf c10store "other" ∧
    transcriptOf (getMemorySummary c10store).2 "other" =
      transcriptOf c10store "other" :=
  ⟨(c10_only_default_session portOk c10store "Hi" "other" (by decide)).1,
   (c10_only_default_session portOk c10store "Hi" "other" (by decide)).2.1⟩

theorem chatMany_success_transcript (port : CompletionPort) :
    ∀ (raws : List String) (store : Store),
      allSuccessfulB port store raws = true →
      ∃ tail,
        transcriptOf (chatMany port store raws) "default" =
          transcriptOf store "default" ++ tail ∧
        tail.length = 2 * raws.length ∧
        alternatesUA tail = true ∧
        userContents tail = raws := by
  intro raws
  induction raws with
  | nil =>
    intro store _
    exact ⟨[], by simp [chatMany], by simp, rfl, rfl⟩
  | cons r rs ih =>
    intro store hall
    simp only [allSuccessfulB, Bool.and_eq_true] at hall
    obtain ⟨h1, h2⟩ := hall
    unfold chatSuccessB at h1
    cases hd : port (draftMessages (transcriptOf store "default") r) with
    | error e => rw [hd] at h1; exact absurd h1 (by simp)
    | ok d =>
      obtain ⟨tail, htr, hlen, halt, huser⟩ := ih (chat port store r).2 h2
      refine ⟨Message.mk Role.user r :: Message.mk Role.assistant d :: tail,
        ?_, ?_, ?_, ?_⟩
      · simp only [chatMany]
        rw [htr, chat_success_transcript port store r d hd]
        simp
      · simp only [List.length_cons, hlen, List.length]
        omega
      · simpa [alternatesUA] using halt
      · simp [userContents, huser]

/-- C6 (confirmed): starting from an empty default transcript, a sequence
of k chat calls that all succeed at both stages leaves exactly 2k stored
messages, alternating one user message then one assistant message per
call, with the user contents listing the inputs in chronological call
order. -/
theorem c6_success_transcript_shape (port : CompletionPort) (store : Store)
    (raws : List String)
    (h0 : transcriptOf store "default" = [])
    (hs : allSuccessfulB port store raws = true) :
    (transcriptOf (chatMany port store raws) "default").length =
      2 * raws.length ∧
    alternatesUA (transcriptOf (chatMany port store raws) "default") =
      true ∧
    userContents (transcriptOf (chatMany port store raws) "default") =
      raws := by
  obtain ⟨tail, htr, hlen, halt, huser⟩ :=
    chatMany_success_transcript port raws store hs
  rw [htr, h0]
  simpa using ⟨hlen, halt, huser⟩

/-- Witness for C6: two successful calls on the always-ok port leave four
messages in user/assistant alternation with the inputs in order. -/
theorem c6_success_transcript_shape_witness :
    (transcriptOf (chatMany portOk [] ["a", "b"]) "default").length =
      2 * (["a", "b"] : List String).length ∧
    alternatesUA (transcriptOf (chatMany portOk [] ["a", "b"]) "default") =
      true ∧
    userContents (transcriptOf (chatMany portOk [] ["a", "b"]) "default") =
      ["a", "b"] :=
  c6_success_transcript_shape portOk [] ["a", "b"] rfl (by decide)
